import Mathlib

/-!
Verification of the Avans Keuze Kompas prototype (NestJS backend plus
React/Next.js frontend) against its natural-language description.

The TypeScript sources are shallowly embedded: JavaScript numbers are
modelled as `Option ℚ` (with `none` playing the role of `NaN`), strings as
Lean `String`, Mongo collections as Lean lists, and side effects (response
cookies, outgoing webhook POSTs, service invocations) as explicit values
threaded through the functions.
-/

/-- JavaScript number, restricted to the values that occur in this code
base: either a rational value or `NaN` (`none`).  JS comparisons on `NaN`
are always false, which `jsLt`/`jsGt` reproduce. -/
abbrev JsNum : Type := Option ℚ

/-- JS `a < b` for a possibly-NaN left operand and a rational literal. -/
def jsLt (a : JsNum) (b : ℚ) : Bool :=
  match a with
  | none => false
  | some q => decide (q < b)

/-- JS `a > b` for a possibly-NaN left operand and a rational literal. -/
def jsGt (a : JsNum) (b : ℚ) : Bool :=
  match a with
  | none => false
  | some q => decide (b < q)

/-- JS `x || 0` on an optional numeric field: `undefined`, `NaN` and `0`
are falsy and yield `0`; any other number is returned unchanged. -/
def jsOrZero : Option JsNum → JsNum
  | none => some 0
  | some none => some 0
  | some (some q) => some q

/-- JS `x ?? d` (nullish coalescing) on an optional field. -/
def jsNullish {α : Type} (x : Option α) (d : α) : α := x.getD d

/-- JS `x || d` on an optional string field: `undefined` and the empty
string are falsy and yield the default. -/
def jsOrStr (x : Option String) (d : String) : String :=
  match x with
  | none => d
  | some s => if s = "" then d else s

/-! ## Backend data model (Mongoose schemas) -/

/-- A stored user document (`users/schemas/user.schema.ts`), including the
bcrypt `password` hash. -/
structure StoredUser where
  _id : String
  username : String
  email : String
  password : String
  is_admin : Bool
  is_student : Bool
  group : Option String
  deriving DecidableEq, Repr

/-- The user object with the `password` field removed, as produced by the
destructuring `const { password, ...safeUser } = user.toObject()` in
`AuthService.validateUser`. -/
structure SafeUser where
  _id : String
  username : String
  email : String
  is_admin : Bool
  is_student : Bool
  group : Option String
  deriving DecidableEq, Repr

/-- Drop the `password` field, keep every other field unchanged. -/
def removePassword (u : StoredUser) : SafeUser :=
  { _id := u._id
    username := u.username
    email := u.email
    is_admin := u.is_admin
    is_student := u.is_student
    group := u.group }

/-- A VKM document (`vkm/schemas/vkm.schema.ts`). -/
structure Vkm where
  _id : String
  name : String
  shortdescription : String
  description : String
  content : String
  studycredit : JsNum
  location : String
  contact_id : JsNum
  level : String
  learningoutcomes : Option String
  deriving DecidableEq, Repr

/-- Exceptions raised by the Nest backend code under consideration. -/
inductive NestException where
  | notFound (msg : String)
  | badRequest (msg : String)
  deriving DecidableEq, Repr

/-! ## UsersService (backend) -/

/-- `UsersService.findByEmail`: `userModel.findOne({ email })`, the first
stored document whose `email` field matches. -/
def UsersService.findByEmail (db : List StoredUser) (email : String) :
    Option StoredUser :=
  db.find? (fun u => u.email == email)

/-- `userModel.findById`, the first stored document whose `_id` matches. -/
def UsersService.findById (db : List StoredUser) (id : String) :
    Option StoredUser :=
  db.find? (fun u => u._id == id)

/-! ## AuthService (backend `auth/auth.service.ts`) -/

/-- The JWT payload built by `AuthService.login` and consumed by
`JwtStrategy.validate`. -/
structure JwtPayload where
  username : String
  sub : String
  is_admin : Bool
  deriving DecidableEq, Repr

/-- The login response body `{ access_token }`. -/
structure LoginToken where
  access_token : String
  deriving DecidableEq, Repr

/-- `AuthService.validateUser`: look the user up by email, compare the
given password against the stored hash with `bcrypt.compare` (abstracted
as the function argument `bcryptCompare`), and return the stored user
without its `password` field, or `null`. -/
def AuthService.validateUser (bcryptCompare : String → String → Bool)
    (db : List StoredUser) (email pass : String) : Option SafeUser :=
  match UsersService.findByEmail db email with
  | none => none
  | some user =>
    if bcryptCompare pass user.password then some (removePassword user)
    else none

/-- `AuthService.login`: sign the payload
`{ username: user.email, sub: user._id, is_admin: user.is_admin }` with
`jwtService.sign` (abstracted as the function argument `sign`). -/
def AuthService.login (sign : JwtPayload → String) (user : SafeUser) :
    LoginToken :=
  { access_token :=
      sign { username := user.email, sub := user._id
             is_admin := user.is_admin } }

/-! ## Express response model -/

/-- `sameSite` cookie attribute values used by the controller. -/
inductive SameSite where
  | strict
  | lax
  | noneSite
  deriving DecidableEq, Repr

/-- Options passed to `res.cookie`. -/
structure CookieOptions where
  httpOnly : Bool
  secure : Bool
  sameSite : SameSite
  maxAge : Nat
  deriving DecidableEq, Repr

/-- The observable effect of an Express `Response` during a handler: the
cookies set with `res.cookie` and the cookies cleared with
`res.clearCookie`, in order. -/
structure ResState where
  cookies : List (String × String × CookieOptions)
  cleared : List String
  deriving DecidableEq, Repr

/-- `res.cookie(name, value, options)`. -/
def ResState.cookie (res : ResState) (name value : String)
    (options : CookieOptions) : ResState :=
  { res with cookies := res.cookies ++ [(name, value, options)] }

/-- `res.clearCookie(name)`. -/
def ResState.clearCookie (res : ResState) (name : String) : ResState :=
  { res with cleared := res.cleared ++ [name] }

/-! ## AuthController (backend `auth/auth.controller.ts`) -/

/-- `AuthController.login`: on a request whose user was accepted by the
local auth guard, sign the token, set it as the `access_token` cookie
(httpOnly, secure in production, sameSite strict, 24h max age) and return
the `{ access_token }` body. -/
def AuthController.login (sign : JwtPayload → String) (nodeEnv : String)
    (user : SafeUser) (res : ResState) : ResState × LoginToken :=
  let token := AuthService.login sign user
  let res := res.cookie "access_token" token.access_token
    { httpOnly := true
      secure := nodeEnv == "production"
      sameSite := SameSite.strict
      maxAge := 24 * 60 * 60 * 1000 }
  (res, token)

/-- The logout response body. -/
structure LogoutMessage where
  message : String
  deriving DecidableEq, Repr

/-- `AuthController.logout`: the route has no guard, so it runs for any
request credentials (`creds`); the handler touches only the response.  The
backend databases are threaded through untouched to record that the
handler has no access to any service state. -/
def AuthController.logout (creds : Option String)
    (users : List StoredUser) (vkms : List Vkm) (res : ResState) :
    List StoredUser × List Vkm × ResState × LogoutMessage :=
  let _ := creds
  (users, vkms, res.clearCookie "access_token",
    { message := "Logout successful" })

/-! ## JwtStrategy (backend `auth/jwt.strategy.ts`) -/

/-- The parts of an incoming request that JWT extraction looks at. -/
structure JwtRequest where
  authorization : Option String
  cookies : List (String × String)
  deriving DecidableEq, Repr

/-- Cookie lookup on the parsed cookie map. -/
def cookiesLookup (cookies : List (String × String)) (name : String) :
    Option String :=
  (cookies.find? (fun p => p.1 == name)).map (fun p => p.2)

/-- Whitespace as matched by `\s` in the auth-header regex. -/
def isSpaceChar (c : Char) : Bool :=
  c.toNat == 32 || (9 ≤ c.toNat && c.toNat ≤ 13)

/-- ASCII lower-casing of one character, for the case-insensitive scheme
comparison. -/
def lowerChar (c : Char) : Char :=
  if Char.ofNat 65 ≤ c ∧ c ≤ Char.ofNat 90 then Char.ofNat (c.toNat + 32)
  else c

/-- Models `ExtractJwt.fromAuthHeaderAsBearerToken` from passport-jwt: the
`Authorization` header is matched against `(\S+)\s+(\S+)`; when the first
group compares case-insensitively equal to `bearer`, the second group is
the token. -/
def ExtractJwt.fromAuthHeaderAsBearerToken (req : JwtRequest) :
    Option String :=
  match req.authorization with
  | none => none
  | some h =>
    let cs := h.toList.dropWhile isSpaceChar
    let scheme := cs.takeWhile (fun c => !isSpaceChar c)
    let afterScheme :=
      (cs.dropWhile (fun c => !isSpaceChar c)).dropWhile isSpaceChar
    let credentials := afterScheme.takeWhile (fun c => !isSpaceChar c)
    if scheme ≠ [] ∧ credentials ≠ [] ∧
        scheme.map lowerChar = "bearer".toList
    then some (String.mk credentials)
    else none

/-- Models `ExtractJwt.fromExtractors` from passport-jwt: try each
extractor in order and return the first token found. -/
def ExtractJwt.fromExtractors
    (extractors : List (JwtRequest → Option String)) (req : JwtRequest) :
    Option String :=
  match extractors with
  | [] => none
  | f :: rest =>
    match f req with
    | some token => some token
    | none => ExtractJwt.fromExtractors rest req

/-- The cookie extractor passed to `fromExtractors` in `JwtStrategy`:
`request?.cookies?.access_token`. -/
def JwtStrategy.cookieExtractor (req : JwtRequest) : Option String :=
  cookiesLookup req.cookies "access_token"

/-- The `jwtFromRequest` option of `JwtStrategy`: header bearer token
first, `access_token` cookie second. -/
def JwtStrategy.jwtFromRequest (req : JwtRequest) : Option String :=
  ExtractJwt.fromExtractors
    [ExtractJwt.fromAuthHeaderAsBearerToken, JwtStrategy.cookieExtractor]
    req

/-- The request user object produced by `JwtStrategy.validate`. -/
structure ValidatedUser where
  userId : String
  email : String
  is_admin : Bool
  deriving DecidableEq, Repr

/-- `JwtStrategy.validate(payload)`. -/
def JwtStrategy.validate (payload : JwtPayload) : ValidatedUser :=
  { userId := payload.sub
    email := payload.username
    is_admin := payload.is_admin }

/-! ## MongoIdPipe and the VKM controller routes (backend) -/

/-- Hexadecimal digit test used by the ObjectId check. -/
def isHexChar (c : Char) : Bool :=
  c.isDigit || (Char.ofNat 97 ≤ c && c ≤ Char.ofNat 102) ||
    (Char.ofNat 65 ≤ c && c ≤ Char.ofNat 70)

/-- Models mongoose `isValidObjectId` on a string argument: a 12-character
(12-byte) string, or a 24-character hexadecimal string. -/
def isValidObjectId (s : String) : Bool :=
  s.length == 12 || (s.length == 24 && s.toList.all isHexChar)

/-- `MongoIdPipe.transform`: throw `BadRequestException` on an invalid
ObjectId, otherwise pass the value through unchanged. -/
def MongoIdPipe.transform (value : String) : Except NestException String :=
  if isValidObjectId value then Except.ok value
  else Except.error (NestException.badRequest "Invalid MongoDB ObjectId")

/-- An invocation of a `VkmService` operation, recorded so that theorems
can state that the service was or was not reached. -/
inductive ServiceCall where
  | findOne (id : String)
  | update (id : String)
  | delete (id : String)
  deriving DecidableEq, Repr

/-- `GET /vkm/:id`: the `:id` parameter goes through `MongoIdPipe` before
`VkmService.findOne` (abstracted as `service`) runs. -/
def VkmController.findOneRoute {α : Type} (service : String → α)
    (id : String) : Except NestException α × List ServiceCall :=
  match MongoIdPipe.transform id with
  | Except.error e => (Except.error e, [])
  | Except.ok v => (Except.ok (service v), [ServiceCall.findOne v])

/-- `PUT /vkm/:id`: the `:id` parameter goes through `MongoIdPipe` before
`VkmService.update` (abstracted as `service`) runs on the id and DTO. -/
def VkmController.updateRoute {α δ : Type} (service : String → δ → α)
    (id : String) (dto : δ) : Except NestException α × List ServiceCall :=
  match MongoIdPipe.transform id with
  | Except.error e => (Except.error e, [])
  | Except.ok v => (Except.ok (service v dto), [ServiceCall.update v])

/-- `DELETE /vkm/:id`: the `:id` parameter goes through `MongoIdPipe`
before `VkmService.delete` (abstracted as `service`) runs. -/
def VkmController.deleteRoute {α : Type} (service : String → α)
    (id : String) : Except NestException α × List ServiceCall :=
  match MongoIdPipe.transform id with
  | Except.error e => (Except.error e, [])
  | Except.ok v => (Except.ok (service v), [ServiceCall.delete v])

/-! ## SyncService (backend `sync/sync.service.ts`) -/

/-- The result of `userModel.findById(userId).select('group')`: the user
document projected to its `group` field (plus `_id`). -/
structure UserGroupProjection where
  _id : String
  group : Option String
  deriving DecidableEq, Repr

/-- Project a stored user to `_id` and `group`. -/
def selectGroup (u : StoredUser) : UserGroupProjection :=
  { _id := u._id, group := u.group }

/-- The payload `{ user, vkm }` POSTed to the n8n webhook. -/
structure SyncPayload where
  user : UserGroupProjection
  vkm : List Vkm
  deriving DecidableEq, Repr

/-- The `{ status, data }` value returned from the webhook response. -/
structure SyncResult where
  status : Nat
  data : String
  deriving DecidableEq, Repr

/-- `SyncService.sendUserAndVkmToN8n`: find the user by id projected to
`group`, throw `NotFoundException` if absent, otherwise POST
`{ user, vkm }` to the webhook (abstracted as the function `webhook`) and
return `{ status, data }` from the response.  The second component lists
the payloads actually POSTed. -/
def SyncService.sendUserAndVkmToN8n (webhook : SyncPayload → SyncResult)
    (users : List StoredUser) (vkms : List Vkm) (userId : String) :
    Except NestException SyncResult × List SyncPayload :=
  match (UsersService.findById users userId).map selectGroup with
  | none => (Except.error (NestException.notFound "User not found"), [])
  | some user =>
    let payload : SyncPayload := { user := user, vkm := vkms }
    let response := webhook payload
    (Except.ok { status := response.status, data := response.data },
      [payload])

/-! ## Frontend singleton wiring

`ConfigManager`, `ApiClient` and `AuthManager` each keep a private static
`instance` field; `getInstance` allocates a new object only when the field
is still unset.  Object identity is modelled by numbering allocations: the
static field is an `Option Nat`, and call number `n` would allocate the
fresh object `n` if it constructed one. -/

/-- `ConfigManager.getInstance`, acting on the static `instance` field. -/
def ConfigManager.getInstance (fresh : Nat) :
    Option Nat → Nat × Option Nat
  | some i => (i, some i)
  | none => (fresh, some fresh)

/-- The exported `getConfig = () => ConfigManager.getInstance()`. -/
def getConfig : Nat → Option Nat → Nat × Option Nat :=
  ConfigManager.getInstance

/-- The sequence of `ConfigManager.getInstance` calls starting from the
unset static field; call `n` uses fresh object `n`. -/
def ConfigManager.runCalls : Nat → Nat × Option Nat
  | 0 => ConfigManager.getInstance 0 none
  | n + 1 => ConfigManager.getInstance (n + 1) (ConfigManager.runCalls n).2

/-- `ApiClient.getInstance`, acting on the static `instance` field. -/
def ApiClient.getInstance (fresh : Nat) :
    Option Nat → Nat × Option Nat
  | some i => (i, some i)
  | none => (fresh, some fresh)

/-- The exported `getApiClient = () => ApiClient.getInstance()`. -/
def getApiClient : Nat → Option Nat → Nat × Option Nat :=
  ApiClient.getInstance

/-- The sequence of `ApiClient.getInstance` calls starting from the unset
static field. -/
def ApiClient.runCalls : Nat → Nat × Option Nat
  | 0 => ApiClient.getInstance 0 none
  | n + 1 => ApiClient.getInstance (n + 1) (ApiClient.runCalls n).2

/-- `AuthManager.getInstance`, acting on the static `instance` field. -/
def AuthManager.getInstance (fresh : Nat) :
    Option Nat → Nat × Option Nat
  | some i => (i, some i)
  | none => (fresh, some fresh)

/-- The exported `getAuthManager = () => AuthManager.getInstance()`. -/
def getAuthManager : Nat → Option Nat → Nat × Option Nat :=
  AuthManager.getInstance

/-- The sequence of `AuthManager.getInstance` calls starting from the
unset static field. -/
def AuthManager.runCalls : Nat → Nat × Option Nat
  | 0 => AuthManager.getInstance 0 none
  | n + 1 => AuthManager.getInstance (n + 1) (AuthManager.runCalls n).2

/-! ## VKMFactory (frontend `lib/vkmFactory.ts`) -/

/-- The frontend `VKMInput` object. -/
structure VKMInput where
  id : JsNum
  name : String
  shortdescription : String
  content : String
  studycredit : JsNum
  location : String
  contact_id : JsNum
  level : String
  deriving DecidableEq, Repr

/-- `Partial<VKMInput>`: every field may be absent. -/
structure PartialVKMInput where
  id : Option JsNum
  name : Option String
  shortdescription : Option String
  content : Option String
  studycredit : Option JsNum
  location : Option String
  contact_id : Option JsNum
  level : Option String
  deriving DecidableEq, Repr

/-- The argument of `VKMFactory.createComplete`: `name` and
`shortdescription` are required, the rest optional. -/
structure CompleteVKMData where
  name : String
  shortdescription : String
  content : Option String
  studycredit : Option JsNum
  location : Option String
  contact_id : Option JsNum
  level : Option String
  deriving DecidableEq, Repr

/-- Models JavaScript `String.prototype.trim`: strip whitespace from both
ends.  (Defined over the character list so that it reduces in the
kernel.) -/
def jsTrim (s : String) : String :=
  String.mk
    (((s.toList.dropWhile isSpaceChar).reverse.dropWhile
        isSpaceChar).reverse)

/-- `VKMFactory.sanitizeString`: inputs are typed `string`, so the
`typeof` guard never fires and the value is trimmed. -/
def VKMFactory.sanitizeString (value : String) : String := jsTrim value

/-- `VKMFactory.validateStudyCredit`: `NaN` maps to `0`, values below `0`
to `0`, values above `60` to `60`, anything else is returned unchanged. -/
def VKMFactory.validateStudyCredit (value : JsNum) : JsNum :=
  match value with
  | none => some 0
  | some num =>
    if num < 0 then some 0
    else if num > 60 then some 60
    else some num

/-- `VKMFactory.createEmpty`. -/
def VKMFactory.createEmpty : VKMInput :=
  { id := some 0
    name := ""
    shortdescription := ""
    content := ""
    studycredit := some 0
    location := ""
    contact_id := some 0
    level := "" }

/-- `VKMFactory.createNew(name, description)`; `now` stands for the
`Date.now()` value used as temporary id. -/
def VKMFactory.createNew (now : ℚ) (name description : String) :
    VKMInput :=
  { id := some now
    name := VKMFactory.sanitizeString name
    shortdescription := VKMFactory.sanitizeString description
    content := ""
    studycredit := some 0
    location := ""
    contact_id := some 0
    level := "" }

/-- `VKMFactory.createComplete(data)`; `now` stands for `Date.now()`. -/
def VKMFactory.createComplete (now : ℚ) (data : CompleteVKMData) :
    VKMInput :=
  { id := some now
    name := VKMFactory.sanitizeString data.name
    shortdescription := VKMFactory.sanitizeString data.shortdescription
    content := VKMFactory.sanitizeString (jsOrStr data.content "")
    studycredit := VKMFactory.validateStudyCredit (jsOrZero data.studycredit)
    location := VKMFactory.sanitizeString (jsOrStr data.location "")
    contact_id := jsOrZero data.contact_id
    level := VKMFactory.sanitizeString (jsOrStr data.level "") }

/-- `VKMFactory.createPartial(data)`: spread the defaults, spread the
given data over them, then sanitize the string fields (with `||`
defaulting) and clamp the study credit (with `??` defaulting). -/
def VKMFactory.createPartialInput (data : PartialVKMInput) : VKMInput :=
  let defaults := VKMFactory.createEmpty
  { id := jsNullish data.id defaults.id
    name := VKMFactory.sanitizeString (jsOrStr data.name defaults.name)
    shortdescription := VKMFactory.sanitizeString
      (jsOrStr data.shortdescription defaults.shortdescription)
    content := VKMFactory.sanitizeString (jsOrStr data.content defaults.content)
    studycredit := VKMFactory.validateStudyCredit
      (jsNullish data.studycredit defaults.studycredit)
    location := VKMFactory.sanitizeString (jsOrStr data.location defaults.location)
    contact_id := jsNullish data.contact_id defaults.contact_id
    level := VKMFactory.sanitizeString (jsOrStr data.level defaults.level) }

/-- `VKMFactory.update(existing, updates)`: spread `existing`, spread
`updates` over it, then sanitize the string fields and clamp the study
credit, each defaulting to the existing value with `??`. -/
def VKMFactory.update (existing : VKMInput) (updates : PartialVKMInput) :
    VKMInput :=
  { id := jsNullish updates.id existing.id
    name := VKMFactory.sanitizeString (jsNullish updates.name existing.name)
    shortdescription := VKMFactory.sanitizeString
      (jsNullish updates.shortdescription existing.shortdescription)
    content := VKMFactory.sanitizeString
      (jsNullish updates.content existing.content)
    studycredit := VKMFactory.validateStudyCredit
      (jsNullish updates.studycredit existing.studycredit)
    location := VKMFactory.sanitizeString
      (jsNullish updates.location existing.location)
    contact_id := jsNullish updates.contact_id existing.contact_id
    level := VKMFactory.sanitizeString (jsNullish updates.level existing.level) }

/-- `VKMFactory.validate(vkm)`: the list of validation errors, built in
source order.  JS string falsiness (`!vkm.name`) is emptiness. -/
def VKMFactory.validate (vkm : VKMInput) : List String :=
  (if vkm.name = "" ∨ (jsTrim vkm.name).length = 0
    then ["Name is required"] else []) ++
  (if vkm.name ≠ "" ∧ vkm.name.length > 255
    then ["Name must be less than 255 characters"] else []) ++
  (if vkm.shortdescription = "" ∨ (jsTrim vkm.shortdescription).length = 0
    then ["Short description is required"] else []) ++
  (if vkm.shortdescription ≠ "" ∧ vkm.shortdescription.length > 500
    then ["Short description must be less than 500 characters"] else []) ++
  (if jsLt vkm.studycredit 0
    then ["Study credit cannot be negative"] else []) ++
  (if jsGt vkm.studycredit 60
    then ["Study credit cannot exceed 60 ECTS"] else [])

/-- `VKMFactory.isValid(vkm)`. -/
def VKMFactory.isValid (vkm : VKMInput) : Bool :=
  (VKMFactory.validate vkm).length == 0

/-! ## AuthManager token state (frontend `lib/auth/authManager.ts`) -/

/-- The decoded JWT payload kept by the frontend `AuthManager`.  The
timestamps `exp` and `iat` are numbers of seconds (`Date.now() / 1000` is
fractional, hence rationals). -/
structure FrontendJWTPayload where
  username : String
  sub : String
  is_admin : Bool
  exp : ℚ
  iat : ℚ
  deriving DecidableEq, Repr

/-- The mutable fields of `AuthManager` that token handling touches:
`token`, `decodedToken` and the pending `refreshTimer` (a timer id).
Listener notification does not change this state and is omitted. -/
structure AuthManagerState where
  token : Option String
  decodedToken : Option FrontendJWTPayload
  refreshTimer : Option Nat
  deriving DecidableEq, Repr

/-- `AuthManager.isTokenExpired(decoded)` at time `now` (seconds). -/
def AuthManager.isTokenExpired (now : ℚ) (decoded : FrontendJWTPayload) :
    Bool :=
  decide (decoded.exp < now)

/-- `AuthManager.clearToken()`: null the token and decoded payload and
cancel any pending refresh timer. -/
def AuthManager.clearToken (s : AuthManagerState) : AuthManagerState :=
  { s with token := none, decodedToken := none, refreshTimer := none }

/-- `AuthManager.getToken()` at time `now`: if a token and a decoded
payload are present and the payload is expired, clear the token and
return null; otherwise return the stored token. -/
def AuthManager.getToken (now : ℚ) (s : AuthManagerState) :
    Option String × AuthManagerState :=
  match s.token, s.decodedToken with
  | some _, some decoded =>
    if AuthManager.isTokenExpired now decoded then
      (none, AuthManager.clearToken s)
    else (s.token, s)
  | _, _ => (s.token, s)

/-! ## Specification-side predicates and demonstration values -/

/-- The predicate "lies in the closed interval [0, 60]" on a JS number,
used to state the study-credit claims. -/
def studycreditInRange (n : JsNum) : Prop :=
  ∃ q : ℚ, n = some q ∧ 0 ≤ q ∧ q ≤ 60

/-- A factory-produced object is study-credit safe: its study credit lies
in [0, 60] and `VKMFactory.validate` reports neither study-credit
error on it. -/
def factoryStudycreditOk (v : VKMInput) : Prop :=
  studycreditInRange v.studycredit ∧
  "Study credit cannot be negative" ∉ VKMFactory.validate v ∧
  "Study credit cannot exceed 60 ECTS" ∉ VKMFactory.validate v

/-- A `VKMInput` whose `studycredit` is `NaN` but whose strings are
valid. -/
def vkmNaN : VKMInput :=
  { id := some 0
    name := "Wiskunde"
    shortdescription := "Korte beschrijving"
    content := ""
    studycredit := none
    location := ""
    contact_id := some 0
    level := "" }

/-- Demonstration user for the auth and sync witnesses. -/
def demoUser : StoredUser :=
  { _id := "65a1b2c3d4e5f60718293a4b"
    username := "student"
    email := "student@avans.nl"
    password := "bcrypthash"
    is_admin := false
    is_student := true
    group := some "G1" }

/-- Demonstration payload for the token-expiry witness: expired at time
`100`. -/
def demoPayload : FrontendJWTPayload :=
  { username := "student@avans.nl"
    sub := "65a1b2c3d4e5f60718293a4b"
    is_admin := false
    exp := 10
    iat := 1 }

/-- Demonstration `AuthManager` state holding the expired token and a
pending refresh timer. -/
def demoAuthState : AuthManagerState :=
  { token := some "expiredtoken"
    decodedToken := some demoPayload
    refreshTimer := some 5 }

/-! ## Theorems -/

/-- A one-element conditional list is empty exactly when the condition
fails. -/
lemma ite_singleton_eq_nil {α : Type} {c : Prop} [Decidable c] {a : α} :
    (if c then [a] else []) = [] ↔ ¬c := by
  split <;> simp [*]

/-- Membership in a one-element conditional list. -/
lemma mem_ite_singleton {α : Type} {c : Prop} [Decidable c] {a b : α} :
    a ∈ (if c then [b] else []) ↔ c ∧ a = b := by
  split <;> simp [*]

/-- Claim C1: for every user record accepted by the local auth guard,
`AuthController.login` returns the body `{ access_token: t }` where `t` is
the JWT signed over exactly
`{ username: u.email, sub: u._id, is_admin: u.is_admin }`, and sets that
same `t` as the `access_token` response cookie with `httpOnly` set and a
max age of 24 hours (86400000 ms). -/
theorem authController_login_correct (sign : JwtPayload → String)
    (nodeEnv : String) (u : SafeUser) (res : ResState) :
    (AuthController.login sign nodeEnv u res).2 =
      { access_token :=
          sign { username := u.email, sub := u._id
                 is_admin := u.is_admin } } ∧
    ∃ opts : CookieOptions,
      (AuthController.login sign nodeEnv u res).1.cookies =
        res.cookies ++
          [("access_token",
            (AuthController.login sign nodeEnv u res).2.access_token,
            opts)] ∧
      opts.httpOnly = true ∧ opts.maxAge = 24 * 60 * 60 * 1000 ∧
      opts.maxAge = 86400000 := by
  refine ⟨rfl, ⟨_, rfl, rfl, rfl, by norm_num⟩⟩

/-- Claim C10: `AuthController.logout` clears the `access_token` cookie
and returns exactly `{ message: 'Logout successful' }` for any request
credentials, leaving the backend state (users and VKM collections)
unchanged. -/
theorem authController_logout_correct (creds : Option String)
    (users : List StoredUser) (vkms : List Vkm) (res : ResState) :
    AuthController.logout creds users vkms res =
      (users, vkms, res.clearCookie "access_token",
        { message := "Logout successful" }) := rfl

/-- Claim C2: `JwtStrategy` takes the JWT from the `Authorization` header
as a bearer token when one is present, falls back to the `access_token`
cookie only when no header token is present, and `validate` returns
exactly `{ userId: p.sub, email: p.username, is_admin: p.is_admin }`. -/
theorem jwtStrategy_extraction_correct :
    (∀ req t, ExtractJwt.fromAuthHeaderAsBearerToken req = some t →
      JwtStrategy.jwtFromRequest req = some t) ∧
    (∀ req, ExtractJwt.fromAuthHeaderAsBearerToken req = none →
      JwtStrategy.jwtFromRequest req = JwtStrategy.cookieExtractor req) ∧
    (∀ p, JwtStrategy.validate p =
      { userId := p.sub, email := p.username, is_admin := p.is_admin }) := by
  refine ⟨?_, ?_, fun p => rfl⟩
  · intro req t h
    simp [JwtStrategy.jwtFromRequest, ExtractJwt.fromExtractors, h]
  · intro req h
    cases hc : JwtStrategy.cookieExtractor req <;>
      simp [JwtStrategy.jwtFromRequest, ExtractJwt.fromExtractors, h, hc]

/-- Witness for C2: a request carrying both a bearer header and an
`access_token` cookie yields the header token. -/
theorem jwtStrategy_extraction_witness :
    JwtStrategy.jwtFromRequest
      { authorization := some "Bearer headertoken"
        cookies := [("access_token", "cookietoken")] } =
      some "headertoken" := by
  exact jwtStrategy_extraction_correct.1 _ "headertoken" rfl

/-- Claim C3: `AuthService.validateUser` returns null exactly when no user
with the email exists or the bcrypt comparison fails, and every non-null
result is the stored user with the `password` field removed and all other
fields unchanged. -/
theorem authService_validateUser_correct
    (bcryptCompare : String → String → Bool) (db : List StoredUser)
    (email pass : String) :
    (AuthService.validateUser bcryptCompare db email pass = none ↔
      UsersService.findByEmail db email = none ∨
        ∃ u, UsersService.findByEmail db email = some u ∧
          bcryptCompare pass u.password = false) ∧
    (∀ su, AuthService.validateUser bcryptCompare db email pass = some su →
      ∃ u, UsersService.findByEmail db email = some u ∧
        su = removePassword u) := by
  cases hfind : UsersService.findByEmail db email with
  | none => simp [AuthService.validateUser, hfind]
  | some u =>
    by_cases hc : bcryptCompare pass u.password <;>
      simp [AuthService.validateUser, hfind, hc]

/-- Witness for C3: with a one-user database and a matching comparison,
`validateUser` returns the stored user stripped of its password. -/
theorem authService_validateUser_witness :
    ∃ u, UsersService.findByEmail [demoUser] "student@avans.nl" = some u ∧
      removePassword demoUser = removePassword u := by
  have h := authService_validateUser_correct (fun p h => p == h)
    [demoUser] "student@avans.nl" "bcrypthash"
  exact h.2 (removePassword demoUser) rfl

/-- Every call of `ConfigManager.runCalls` returns object `0`, the object
allocated at the first call, and leaves it stored. -/
lemma configManager_runCalls_fixed (n : Nat) :
    ConfigManager.runCalls n = (0, some 0) := by
  induction n with
  | zero => rfl
  | succ n ih => simp [ConfigManager.runCalls, ih, ConfigManager.getInstance]

/-- Every call of `ApiClient.runCalls` returns object `0`. -/
lemma apiClient_runCalls_fixed (n : Nat) :
    ApiClient.runCalls n = (0, some 0) := by
  induction n with
  | zero => rfl
  | succ n ih => simp [ApiClient.runCalls, ih, ApiClient.getInstance]

/-- Every call of `AuthManager.runCalls` returns object `0`. -/
lemma authManager_runCalls_fixed (n : Nat) :
    AuthManager.runCalls n = (0, some 0) := by
  induction n with
  | zero => rfl
  | succ n ih => simp [AuthManager.runCalls, ih, AuthManager.getInstance]

/-- Claim C4: `ConfigManager.getInstance`, `ApiClient.getInstance` and
`AuthManager.getInstance` are singletons: in any sequence of calls each
returns the same object as on its first call, and `getConfig`,
`getApiClient` and `getAuthManager` are those same getters. -/
theorem frontend_singletons_correct (n : Nat) :
    (ConfigManager.runCalls n).1 = (ConfigManager.runCalls 0).1 ∧
    (ApiClient.runCalls n).1 = (ApiClient.runCalls 0).1 ∧
    (AuthManager.runCalls n).1 = (AuthManager.runCalls 0).1 ∧
    getConfig = ConfigManager.getInstance ∧
    getApiClient = ApiClient.getInstance ∧
    getAuthManager = AuthManager.getInstance := by
  refine ⟨?_, ?_, ?_, rfl, rfl, rfl⟩
  · rw [configManager_runCalls_fixed, configManager_runCalls_fixed]
  · rw [apiClient_runCalls_fixed, apiClient_runCalls_fixed]
  · rw [authManager_runCalls_fixed, authManager_runCalls_fixed]

/-- Claim C5: `SyncService.sendUserAndVkmToN8n` throws
`NotFoundException` exactly when no user with the id exists, POSTs nothing
in that case, and otherwise POSTs the single payload `{ user, vkm }` with
the user projected to its `group` field and the full VKM list, returning
`{ status, data }` from the webhook response. -/
theorem syncService_sendUserAndVkm_correct
    (webhook : SyncPayload → SyncResult) (users : List StoredUser)
    (vkms : List Vkm) (userId : String) :
    ((SyncService.sendUserAndVkmToN8n webhook users vkms userId).1 =
        Except.error (NestException.notFound "User not found") ↔
      UsersService.findById users userId = none) ∧
    (UsersService.findById users userId = none →
      (SyncService.sendUserAndVkmToN8n webhook users vkms userId).2 = []) ∧
    (∀ u, UsersService.findById users userId = some u →
      SyncService.sendUserAndVkmToN8n webhook users vkms userId =
        (Except.ok
          { status := (webhook { user := selectGroup u, vkm := vkms }).status
            data := (webhook { user := selectGroup u, vkm := vkms }).data },
         [{ user := selectGroup u, vkm := vkms }])) := by
  cases hfind : UsersService.findById users userId with
  | none => simp [SyncService.sendUserAndVkmToN8n, hfind]
  | some u => simp [SyncService.sendUserAndVkmToN8n, hfind]

/-- Witness for C5: syncing the demonstration user's id POSTs exactly one
payload containing the group projection and the full VKM list, and
returns the webhook's status and data. -/
theorem syncService_sendUserAndVkm_witness :
    SyncService.sendUserAndVkmToN8n
      (fun _ => { status := 200, data := "ok" }) [demoUser] []
      "65a1b2c3d4e5f60718293a4b" =
      (Except.ok { status := 200, data := "ok" },
       [{ user := selectGroup demoUser, vkm := [] }]) := by
  exact (syncService_sendUserAndVkm_correct
    (fun _ => { status := 200, data := "ok" }) [demoUser] []
    "65a1b2c3d4e5f60718293a4b").2.2 demoUser rfl

/-- Claim C8: on the `:id` VKM routes, an invalid MongoDB ObjectId makes
`MongoIdPipe` throw `BadRequestException` before the `VkmService`
operation runs, and a valid ObjectId is handed to the service
unchanged. -/
theorem vkmController_mongoIdPipe_correct {α δ : Type}
    (findOneService : String → α) (updateService : String → δ → α)
    (deleteService : String → α) (id : String) (dto : δ) :
    (isValidObjectId id = false →
      VkmController.findOneRoute findOneService id =
        (Except.error (NestException.badRequest "Invalid MongoDB ObjectId"),
          []) ∧
      VkmController.updateRoute updateService id dto =
        (Except.error (NestException.badRequest "Invalid MongoDB ObjectId"),
          []) ∧
      VkmController.deleteRoute deleteService id =
        (Except.error (NestException.badRequest "Invalid MongoDB ObjectId"),
          [])) ∧
    (isValidObjectId id = true →
      VkmController.findOneRoute findOneService id =
        (Except.ok (findOneService id), [ServiceCall.findOne id]) ∧
      VkmController.updateRoute updateService id dto =
        (Except.ok (updateService id dto), [ServiceCall.update id]) ∧
      VkmController.deleteRoute deleteService id =
        (Except.ok (deleteService id), [ServiceCall.delete id])) := by
  constructor <;> intro h <;>
    simp [VkmController.findOneRoute, VkmController.updateRoute,
      VkmController.deleteRoute, MongoIdPipe.transform, h]

/-- Witness for C8: the id `hello` is not a valid ObjectId, so all three
routes reject it without a service call; the 24-hex-digit id is valid and
reaches the service unchanged. -/
theorem vkmController_mongoIdPipe_witness :
    (VkmController.findOneRoute (fun i => i) "hello" =
      (Except.error (NestException.badRequest "Invalid MongoDB ObjectId"),
        []) ∧
     VkmController.updateRoute (fun i (_ : Nat) => i) "hello" 7 =
      (Except.error (NestException.badRequest "Invalid MongoDB ObjectId"),
        []) ∧
     VkmController.deleteRoute (fun i => i) "hello" =
      (Except.error (NestException.badRequest "Invalid MongoDB ObjectId"),
        [])) ∧
    VkmController.findOneRoute (fun i => i) "65a1b2c3d4e5f60718293a4b" =
      (Except.ok "65a1b2c3d4e5f60718293a4b",
        [ServiceCall.findOne "65a1b2c3d4e5f60718293a4b"]) := by
  constructor
  · exact (vkmController_mongoIdPipe_correct (fun i => i)
      (fun i (_ : Nat) => i) (fun i => i) "hello" 7).1 rfl
  · exact ((vkmController_mongoIdPipe_correct (fun i => i)
      (fun i (_ : Nat) => i) (fun i => i) "65a1b2c3d4e5f60718293a4b"
      7).2 rfl).1

/-- Claim C9: `AuthManager.getToken` never returns an expired token: a
non-null result means the decoded payload (when present) has `exp` not
earlier than the call time, and an expired stored token is cleared —
token, decoded payload and refresh timer — via `clearToken` before `null`
is returned. -/
theorem authManager_getToken_correct (s : AuthManagerState) (now : ℚ) :
    (∀ t, (AuthManager.getToken now s).1 = some t →
      ∀ d, s.decodedToken = some d → now ≤ d.exp) ∧
    (∀ t d, s.token = some t → s.decodedToken = some d → d.exp < now →
      (AuthManager.getToken now s).1 = none ∧
      (AuthManager.getToken now s).2 = AuthManager.clearToken s ∧
      (AuthManager.getToken now s).2.token = none ∧
      (AuthManager.getToken now s).2.decodedToken = none ∧
      (AuthManager.getToken now s).2.refreshTimer = none) := by
  obtain ⟨tok, dec, timer⟩ := s
  cases tok with
  | none =>
    cases dec <;>
      simp [AuthManager.getToken]
  | some t0 =>
    cases dec with
    | none => simp [AuthManager.getToken]
    | some d0 =>
      by_cases hexp : d0.exp < now <;>
        simp [AuthManager.getToken, AuthManager.isTokenExpired,
          AuthManager.clearToken, hexp]
      exact le_of_not_lt hexp

/-- Witness for C9: at time `100` the expired demonstration token is
cleared (token, payload and timer) and `null` is returned. -/
theorem authManager_getToken_witness :
    (AuthManager.getToken 100 demoAuthState).1 = none ∧
    (AuthManager.getToken 100 demoAuthState).2 =
      AuthManager.clearToken demoAuthState ∧
    (AuthManager.getToken 100 demoAuthState).2.token = none ∧
    (AuthManager.getToken 100 demoAuthState).2.decodedToken = none ∧
    (AuthManager.getToken 100 demoAuthState).2.refreshTimer = none := by
  exact (authManager_getToken_correct demoAuthState 100).2 "expiredtoken"
    demoPayload rfl rfl (by norm_num [demoPayload])

/-- The empty string trims to the empty string. -/
lemma jsTrim_empty_of_empty (s : String) (h : s = "") :
    (jsTrim s).length = 0 := by
  subst h
  rfl

/-- Counterexample to C6 as stated: a `VKMInput` whose `studycredit` is
`NaN` (a JavaScript number) passes `VKMFactory.validate` with no errors,
yet its study credit does not lie in the closed interval [0, 60]. -/
theorem vkmFactory_validate_counterexample :
    VKMFactory.validate vkmNaN = [] ∧
    ¬ studycreditInRange vkmNaN.studycredit := by
  constructor
  · rfl
  · rintro ⟨q, hq, -, -⟩
    exact Option.noConfusion hq

/-- Claim C6 (amended): `VKMFactory.validate` returns no errors exactly
when the name is non-empty after trimming with length at most 255, the
short description is non-empty after trimming with length at most 500,
and the study credit is neither less than 0 nor greater than 60 under
JavaScript comparison (so a `NaN` study credit is accepted);
`VKMFactory.isValid` is true exactly in that case. -/
theorem vkmFactory_validate_correct (vkm : VKMInput) :
    (VKMFactory.validate vkm = [] ↔
      ((jsTrim vkm.name).length ≠ 0 ∧ vkm.name.length ≤ 255 ∧
       (jsTrim vkm.shortdescription).length ≠ 0 ∧
       vkm.shortdescription.length ≤ 500 ∧
       jsLt vkm.studycredit 0 = false ∧
       jsGt vkm.studycredit 60 = false)) ∧
    (VKMFactory.isValid vkm = true ↔ VKMFactory.validate vkm = []) := by
  constructor
  · rw [VKMFactory.validate]
    simp only [List.append_eq_nil, ite_singleton_eq_nil]
    constructor
    · rintro ⟨⟨⟨⟨⟨h1, h2⟩, h3⟩, h4⟩, h5⟩, h6⟩
      rw [not_or] at h1 h3
      obtain ⟨h1a, h1b⟩ := h1
      obtain ⟨h3a, h3b⟩ := h3
      refine ⟨h1b, ?_, h3b, ?_, ?_, ?_⟩
      · rcases not_and_or.mp h2 with h | h
        · exact absurd (not_not.mp h) h1a
        · exact Nat.le_of_not_lt h
      · rcases not_and_or.mp h4 with h | h
        · exact absurd (not_not.mp h) h3a
        · exact Nat.le_of_not_lt h
      · exact Bool.eq_false_iff.mpr h5
      · exact Bool.eq_false_iff.mpr h6
    · rintro ⟨h1, h2, h3, h4, h5, h6⟩
      have hn : vkm.name ≠ "" := fun hs => h1 (jsTrim_empty_of_empty _ hs)
      have hsd : vkm.shortdescription ≠ "" := fun hs =>
        h3 (jsTrim_empty_of_empty _ hs)
      refine ⟨⟨⟨⟨⟨?_, ?_⟩, ?_⟩, ?_⟩, ?_⟩, ?_⟩
      · rw [not_or]
        exact ⟨hn, h1⟩
      · rintro ⟨-, hlen⟩
        exact absurd hlen (Nat.not_lt.mpr h2)
      · rw [not_or]
        exact ⟨hsd, h3⟩
      · rintro ⟨-, hlen⟩
        exact absurd hlen (Nat.not_lt.mpr h4)
      · simp [h5]
      · simp [h6]
  · simp [VKMFactory.isValid, List.length_eq_zero]

/-- `validateStudyCredit` always lands in the closed interval [0, 60]. -/
lemma validateStudyCredit_inRange (n : JsNum) :
    studycreditInRange (VKMFactory.validateStudyCredit n) := by
  cases n with
  | none => exact ⟨0, rfl, le_refl 0, by norm_num⟩
  | some q =>
    by_cases h0 : q < 0
    · refine ⟨0, ?_, le_refl 0, by norm_num⟩
      simp [VKMFactory.validateStudyCredit, h0]
    · by_cases h60 : q > 60
      · refine ⟨60, ?_, by norm_num, le_refl 60⟩
        simp [VKMFactory.validateStudyCredit, h0, h60]
      · refine ⟨q, ?_, le_of_not_lt h0, le_of_not_lt h60⟩
        simp [VKMFactory.validateStudyCredit, h0, h60]

/-- A study credit in [0, 60] triggers neither study-credit error of
`VKMFactory.validate`. -/
lemma studycredit_no_error (v : VKMInput)
    (h : studycreditInRange v.studycredit) :
    "Study credit cannot be negative" ∉ VKMFactory.validate v ∧
    "Study credit cannot exceed 60 ECTS" ∉ VKMFactory.validate v := by
  obtain ⟨q, hq, h0, h60⟩ := h
  have hlt : jsLt v.studycredit 0 = false := by
    rw [hq]
    simp [jsLt]
    exact h0
  have hgt : jsGt v.studycredit 60 = false := by
    rw [hq]
    simp [jsGt]
    exact h60
  constructor <;>
    simp [VKMFactory.validate, mem_ite_singleton, hlt, hgt]

/-- `factoryStudycreditOk` follows from the range of the study credit. -/
lemma factoryStudycreditOk_of_inRange (v : VKMInput)
    (h : studycreditInRange v.studycredit) : factoryStudycreditOk v :=
  ⟨h, studycredit_no_error v h⟩

/-- Claim C7: every `VKMInput` produced by `createEmpty`, `createNew`,
`createComplete`, `createPartial` or `update` has a study credit in the
closed interval [0, 60], so `VKMFactory.validate` never reports a
study-credit error on a factory-produced object. -/
theorem vkmFactory_studycredit_invariant (now : ℚ)
    (name description : String) (data : CompleteVKMData)
    (pd : PartialVKMInput) (existing : VKMInput)
    (updates : PartialVKMInput) :
    factoryStudycreditOk VKMFactory.createEmpty ∧
    factoryStudycreditOk (VKMFactory.createNew now name description) ∧
    factoryStudycreditOk (VKMFactory.createComplete now data) ∧
    factoryStudycreditOk (VKMFactory.createPartialInput pd) ∧
    factoryStudycreditOk (VKMFactory.update existing updates) := by
  refine ⟨?_, ?_, ?_, ?_, ?_⟩ <;>
    apply factoryStudycreditOk_of_inRange
  · exact ⟨0, rfl, le_refl 0, by norm_num⟩
  · exact ⟨0, rfl, le_refl 0, by norm_num⟩
  · exact validateStudyCredit_inRange _
  · exact validateStudyCredit_inRange _
  · exact validateStudyCredit_inRange _
